import Mathlib

/-!
Verification development for the job-application assistant front end
(GeneratorPage, DashboardPage, AuthModal, LandingPage).

The client is a thin orchestration shell around a remote HTTP API.  We give a
shallow embedding of the client-side state and of every event handler the
claims touch: each React handler becomes a pure function from the page state
(plus, for an `async` handler, the outcome of its network call) to the new
page state together with the list of network requests it issued, the toast
notifications it displayed, and any navigation it triggered.  An `async`
handler is split at its `await` point into a synchronous start half (which
issues the request) and a continuation half (which consumes the outcome),
so that interleavings of overlapping calls can be expressed.

Cosmetic timer-driven progress animation (`setInterval` incrementing the
progress bar) is modelled only through the explicit `setProgress(0)` /
`setProgress(100)` calls in the handlers; the timer ticks themselves are
purely visual and touch no other state.
-/

namespace Bewerbung

/-- JSON-like values as the client sees backend payloads.  Objects are
encoded as cons-cells (`objNil` / `objCons`) inside the single inductive so
that decidable equality can be derived; `Json.obj` rebuilds the usual
list-of-fields view.  The client treats job-analysis and resume-data
payloads as opaque values of this type. -/
inductive Json where
  | null : Json
  | str : String → Json
  | objNil : Json
  | objCons : String → Json → Json → Json
  deriving DecidableEq, Repr

/-- Object literal notation helper: `Json.obj [(k, v), ...]`. -/
def Json.obj : List (String × Json) → Json
  | [] => Json.objNil
  | (k, v) :: rest => Json.objCons k v (Json.obj rest)

/-- JavaScript property access `o?.k`: returns the field named `k` when `o`
is an object that has it, and null/undefined (collapsed to `Json.null`)
otherwise. -/
def Json.getField : Json → String → Json
  | Json.objCons k v rest, key => if k = key then v else Json.getField rest key
  | _, _ => Json.null

/-- JavaScript truthiness of a JSON value: null/undefined and the empty
string are falsy; any object (even empty) and any non-empty string are
truthy. -/
def jsTruthy : Json → Bool
  | Json.null => false
  | Json.str s => !(s == "")
  | Json.objNil => true
  | Json.objCons _ _ _ => true

/-- JavaScript `String.prototype.toLowerCase`, character by character. -/
def jsLower (s : String) : String := String.mk (s.data.map Char.toLower)

/-- JavaScript `String.prototype.endsWith`. -/
def jsEndsWith (s suffix : String) : Bool := suffix.data.isSuffixOf s.data

/-- The client-side file filter: `file.name.toLowerCase().endsWith('.pdf')`
(GeneratorPage, handleFileUpload). -/
def isPdfName (name : String) : Bool := jsEndsWith (jsLower name) ".pdf"

/-- JavaScript `detail || generic`: the error-toast text picks the `detail`
string from the error response body when it is present and non-empty, and
the generic fallback otherwise. -/
def orGeneric : Option String → String → String
  | some d, g => if d = "" then g else d
  | none, g => g

/-- Outcome of an awaited network call: either the response data or an
error carrying `error.response?.data?.detail` (absent when the failure
had no body or the body had no detail field). -/
inductive Res (α : Type) where
  | ok : α → Res α
  | err : Option String → Res α
  deriving DecidableEq, Repr

/-- A toast notification shown to the user (`toast.success` / `toast.error`
from sonner). -/
inductive Toast where
  | success : String → Toast
  | err : String → Toast
  deriving DecidableEq, Repr

/-- The request body sent to `POST /generate-pdf` and `POST /applications`:
both pages build exactly these six fields. -/
structure PdfBody where
  job_url : Json
  job_analysis : Json
  resume_data : Json
  cover_letter : Json
  company_name : Json
  job_title : Json
  deriving DecidableEq, Repr

/-- A network request issued by the client, tagged with the data the code
puts in the request body. -/
inductive Request where
  | analyzeJob : String → Request
  | analyzeResume : String → Request
  | generateCoverLetter : Json → Json → Request
  | generatePdf : PdfBody → Request
  | createApplication : PdfBody → Request
  | getApplications : Request
  | deleteApplication : String → Request
  deriving DecidableEq, Repr

/-- The mutable state of GeneratorPage: the `useState` hooks declared at the
top of the component. -/
structure GenState where
  currentStep : Nat
  loading : Bool
  progress : Nat
  progressText : String
  jobUrl : String
  jobAnalysis : Json
  resumeFile : Option String
  resumeData : Json
  coverLetter : Json
  deriving DecidableEq, Repr

/-- GeneratorPage initial state: `useState(1)`, `useState(false)`,
`useState(0)`, `useState('')`, `useState('')`, `useState(null)`,
`useState(null)`, `useState(null)`, `useState('')`. -/
def initGenState : GenState :=
  { currentStep := 1, loading := false, progress := 0, progressText := "",
    jobUrl := "", jobAnalysis := Json.null, resumeFile := none,
    resumeData := Json.null, coverLetter := Json.str "" }

/-- Result of running one handler (or one half of an async handler): the
new component state, the network requests issued, the toasts displayed,
and the route navigated to (if any). -/
structure HandlerResult where
  state : GenState
  requests : List Request
  toasts : List Toast
  navTo : Option String
  deriving DecidableEq, Repr

namespace Generator

/-- GeneratorPage `analyze-job-btn`: `disabled={loading || !jobUrl}`. -/
def analyzeBtnDisabled (s : GenState) : Bool := s.loading || s.jobUrl == ""

/-- GeneratorPage `generate-btn`: `disabled={loading || !resumeData}`. -/
def generateBtnDisabled (s : GenState) : Bool := s.loading || !jsTruthy s.resumeData

/-- GeneratorPage step-4 `save-btn`: `disabled={loading}`. -/
def saveBtnDisabled (s : GenState) : Bool := s.loading

/-- GeneratorPage step-4 `download-btn`: `disabled={loading}`. -/
def downloadBtnDisabled (s : GenState) : Bool := s.loading

/-- GeneratorPage step-4 `edit-btn` has no `disabled` attribute. -/
def editBtnDisabled (_s : GenState) : Bool := false

/-- Handler `analyzeJob`, synchronous part up to the `await`: guard on the
empty URL (toast, no call), otherwise set the loading flags and issue
`POST /analyze-job` with the stored URL. -/
def analyzeJob (s : GenState) : HandlerResult :=
  if s.jobUrl = "" then
    { state := s, requests := [],
      toasts := [Toast.err "Bitte geben Sie eine URL ein"], navTo := none }
  else
    { state := { s with loading := true, progress := 0,
                        progressText := "Analysiere Stellenausschreibung..." },
      requests := [Request.analyzeJob s.jobUrl], toasts := [], navTo := none }

/-- Handler `analyzeJob`, continuation after the `await`: on success store
the response in `jobAnalysis` and advance to step 2; on failure toast the
body detail or the generic message.  Either way the `finally` block clears
`loading` and `progress`. -/
def analyzeJobDone (s : GenState) : Res Json → HandlerResult
  | Res.ok r =>
    { state := { s with jobAnalysis := r, currentStep := 2,
                        loading := false, progress := 0 },
      requests := [], toasts := [Toast.success "Stellenausschreibung analysiert!"],
      navTo := none }
  | Res.err d =>
    { state := { s with loading := false, progress := 0 },
      requests := [], toasts := [Toast.err (orGeneric d "Fehler bei der Analyse")],
      navTo := none }

/-- Handler `handleFileUpload`, synchronous part: no-op when no file was
picked; reject a name that does not end in `.pdf` (case-insensitively)
with a toast and no call; otherwise store the file, set the loading flags
and issue `POST /analyze-resume`. -/
def handleFileUpload (s : GenState) : Option String → HandlerResult
  | none => { state := s, requests := [], toasts := [], navTo := none }
  | some name =>
    if isPdfName name = false then
      { state := s, requests := [],
        toasts := [Toast.err "Nur PDF-Dateien werden akzeptiert"], navTo := none }
    else
      { state := { s with resumeFile := some name, loading := true,
                          progressText := "Analysiere Lebenslauf...", progress := 0 },
        requests := [Request.analyzeResume name], toasts := [], navTo := none }

/-- Handler `handleFileUpload`, continuation: on success store the response
in `resumeData`; on failure toast the body detail or the generic message
and clear `resumeFile`.  The `finally` block clears `loading` and
`progress`. -/
def fileUploadDone (s : GenState) : Res Json → HandlerResult
  | Res.ok r =>
    { state := { s with resumeData := r, loading := false, progress := 0 },
      requests := [], toasts := [Toast.success "Lebenslauf analysiert!"],
      navTo := none }
  | Res.err d =>
    { state := { s with resumeFile := none, loading := false, progress := 0 },
      requests := [],
      toasts := [Toast.err (orGeneric d "Fehler bei der PDF-Analyse")],
      navTo := none }

/-- Handler `generateCoverLetter`, synchronous part: move to step 3, set the
loading flags, and issue `POST /generate-cover-letter` with the stored
`jobAnalysis` and `resumeData` forwarded verbatim. -/
def generateCoverLetter (s : GenState) : HandlerResult :=
  { state := { s with loading := true, currentStep := 3, progress := 0,
                      progressText := "Erstelle Bewerbungsanschreiben..." },
    requests := [Request.generateCoverLetter s.jobAnalysis s.resumeData],
    toasts := [], navTo := none }

/-- Handler `generateCoverLetter`, continuation: on success store
`response.data.cover_letter` and advance to step 4; on failure toast the
body detail or the generic message and fall back to step 2. -/
def generateCoverLetterDone (s : GenState) : Res Json → HandlerResult
  | Res.ok r =>
    { state := { s with coverLetter := r.getField "cover_letter",
                        currentStep := 4, loading := false, progress := 0 },
      requests := [], toasts := [Toast.success "Anschreiben erstellt!"],
      navTo := none }
  | Res.err d =>
    { state := { s with currentStep := 2, loading := false, progress := 0 },
      requests := [],
      toasts := [Toast.err (orGeneric d "Fehler bei der Generierung")],
      navTo := none }

/-- The request body GeneratorPage builds for `POST /generate-pdf` and for
`POST /applications`: the stored values forwarded verbatim, plus the
company name and job title projected out of the job analysis with `?.`
access. -/
def pdfBody (s : GenState) : PdfBody :=
  { job_url := Json.str s.jobUrl,
    job_analysis := s.jobAnalysis,
    resume_data := s.resumeData,
    cover_letter := s.coverLetter,
    company_name := s.jobAnalysis.getField "company_name",
    job_title := s.jobAnalysis.getField "job_title" }

/-- Handler `downloadPdf`, synchronous part: set `loading` and the progress
text, and issue `POST /generate-pdf`. -/
def downloadPdf (s : GenState) : HandlerResult :=
  { state := { s with loading := true, progressText := "Erstelle PDF..." },
    requests := [Request.generatePdf (pdfBody s)], toasts := [], navTo := none }

/-- Handler `downloadPdf`, continuation: on success trigger the local
save-as flow and toast; on failure toast the fixed generic message (the
response body is not consulted).  The `finally` block clears `loading`. -/
def downloadPdfDone (s : GenState) : Res Unit → HandlerResult
  | Res.ok _ =>
    { state := { s with loading := false },
      requests := [], toasts := [Toast.success "PDF heruntergeladen!"],
      navTo := none }
  | Res.err _ =>
    { state := { s with loading := false },
      requests := [], toasts := [Toast.err "Fehler beim PDF-Download"],
      navTo := none }

/-- Handler `saveApplication`, synchronous part: set `loading` and issue
`POST /applications` with the same six-field body as the PDF call. -/
def saveApplication (s : GenState) : HandlerResult :=
  { state := { s with loading := true },
    requests := [Request.createApplication (pdfBody s)], toasts := [],
    navTo := none }

/-- Handler `saveApplication`, continuation: on success toast and navigate
to the dashboard; on failure toast the fixed generic message (the response
body is not consulted).  The `finally` block clears `loading`. -/
def saveApplicationDone (s : GenState) : Res Unit → HandlerResult
  | Res.ok _ =>
    { state := { s with loading := false },
      requests := [], toasts := [Toast.success "Bewerbung gespeichert!"],
      navTo := some "/dashboard" }
  | Res.err _ =>
    { state := { s with loading := false },
      requests := [], toasts := [Toast.err "Fehler beim Speichern"],
      navTo := none }

/-- Step-2 `back-btn`: `onClick={() => setCurrentStep(1)}`. -/
def stepBack (s : GenState) : GenState := { s with currentStep := 1 }

/-- Step-4 `edit-btn`: `onClick={() => setCurrentStep(2)}`. -/
def editCoverLetter (s : GenState) : GenState := { s with currentStep := 2 }

/-- A handler invocation with no effect at all. -/
def noop (s : GenState) : HandlerResult :=
  { state := s, requests := [], toasts := [], navTo := none }

end Generator

/-- User-interface events of GeneratorPage.  Click events fire the
synchronous half of a handler and are guarded by the button being rendered
in the current step and not disabled; `...Done` events deliver the outcome
of an outstanding call to the handler's continuation (which the code runs
unconditionally whenever the response arrives). -/
inductive GEvent where
  | setJobUrl : String → GEvent
  | analyzeJobClick : GEvent
  | analyzeJobDone : Res Json → GEvent
  | fileUpload : Option String → GEvent
  | fileUploadDone : Res Json → GEvent
  | backClick : GEvent
  | generateClick : GEvent
  | generateDone : Res Json → GEvent
  | editClick : GEvent
  | saveClick : GEvent
  | saveDone : Res Unit → GEvent
  | downloadClick : GEvent
  | downloadDone : Res Unit → GEvent
  deriving DecidableEq, Repr

/-- One step of the GeneratorPage user interface: dispatch an event to the
matching handler, guarded by the visibility and disabledness of its
triggering control. -/
def stepG (s : GenState) (e : GEvent) : HandlerResult :=
  match e with
  | GEvent.setJobUrl u =>
    if s.currentStep = 1 then
      { state := { s with jobUrl := u }, requests := [], toasts := [], navTo := none }
    else Generator.noop s
  | GEvent.analyzeJobClick =>
    if s.currentStep = 1 ∧ Generator.analyzeBtnDisabled s = false then
      Generator.analyzeJob s
    else Generator.noop s
  | GEvent.analyzeJobDone o => Generator.analyzeJobDone s o
  | GEvent.fileUpload f =>
    if s.currentStep = 2 then Generator.handleFileUpload s f else Generator.noop s
  | GEvent.fileUploadDone o => Generator.fileUploadDone s o
  | GEvent.backClick =>
    if s.currentStep = 2 then
      { state := Generator.stepBack s, requests := [], toasts := [], navTo := none }
    else Generator.noop s
  | GEvent.generateClick =>
    if s.currentStep = 2 ∧ Generator.generateBtnDisabled s = false then
      Generator.generateCoverLetter s
    else Generator.noop s
  | GEvent.generateDone o => Generator.generateCoverLetterDone s o
  | GEvent.editClick =>
    if s.currentStep = 4 then
      { state := Generator.editCoverLetter s, requests := [], toasts := [], navTo := none }
    else Generator.noop s
  | GEvent.saveClick =>
    if s.currentStep = 4 ∧ Generator.saveBtnDisabled s = false then
      Generator.saveApplication s
    else Generator.noop s
  | GEvent.saveDone o => Generator.saveApplicationDone s o
  | GEvent.downloadClick =>
    if s.currentStep = 4 ∧ Generator.downloadBtnDisabled s = false then
      Generator.downloadPdf s
    else Generator.noop s
  | GEvent.downloadDone o => Generator.downloadPdfDone s o

/-- Run a sequence of user-interface events from a state, accumulating the
network requests the client issues along the way. -/
def runG (s : GenState) (acc : List Request) : List GEvent → GenState × List Request
  | [] => (s, acc)
  | e :: es => runG (stepG s e).state (acc ++ (stepG s e).requests) es

/-- Run a sequence of events from the initial GeneratorPage state. -/
def runG0 (es : List GEvent) : GenState × List Request :=
  runG initGenState [] es

/-- An Application Record as delivered by `GET /applications`.  The client
reads `id`, `job_url`, `cover_letter`, `company_name`, `job_title` and
`created_at`; per the data model the persisted record also carries the
job analysis and resume data that were sent when it was created. -/
structure Application where
  id : String
  job_url : String
  job_analysis : Json
  resume_data : Json
  cover_letter : String
  company_name : Json
  job_title : Json
  created_at : String
  deriving DecidableEq, Repr

/-- The mutable state of DashboardPage: the `useState` hooks at the top of
the component. -/
structure DashState where
  applications : List Application
  loading : Bool
  deleteId : Option String
  selectedApp : Option Application
  deriving DecidableEq, Repr

/-- Result of running one DashboardPage handler. -/
structure DashResult where
  state : DashState
  requests : List Request
  toasts : List Toast
  deriving DecidableEq, Repr

namespace Dashboard

/-- DashboardPage initial state: `useState([])`, `useState(true)`,
`useState(null)`, `useState(null)`. -/
def initDashState : DashState :=
  { applications := [], loading := true, deleteId := none, selectedApp := none }

/-- Handler `fetchApplications`, synchronous part: issue
`GET /applications`. -/
def fetchApplications (s : DashState) : DashResult :=
  { state := s, requests := [Request.getApplications], toasts := [] }

/-- Handler `fetchApplications`, continuation: on success store the list;
on failure toast the fixed generic message (the response body is not
consulted).  The `finally` block clears `loading`. -/
def fetchApplicationsDone (s : DashState) : Res (List Application) → DashResult
  | Res.ok apps =>
    { state := { s with applications := apps, loading := false },
      requests := [], toasts := [] }
  | Res.err _ =>
    { state := { s with loading := false },
      requests := [],
      toasts := [Toast.err "Fehler beim Laden der Bewerbungen"] }

/-- Handler `deleteApplication` (fired by the confirm button of the delete
dialog), whole invocation: the early return when no id is pending,
otherwise one `DELETE /applications/id` call; on success drop every
displayed record whose id equals the pending id, on failure toast the
fixed generic message.  The `finally` block clears the pending id. -/
def deleteApplication (s : DashState) : Res Unit → DashResult
  | o =>
    match s.deleteId with
    | none => { state := s, requests := [], toasts := [] }
    | some id =>
      match o with
      | Res.ok _ =>
        { state := { s with
            applications := s.applications.filter (fun a => a.id != id),
            deleteId := none },
          requests := [Request.deleteApplication id],
          toasts := [Toast.success "Bewerbung gelöscht"] }
      | Res.err _ =>
        { state := { s with deleteId := none },
          requests := [Request.deleteApplication id],
          toasts := [Toast.err "Fehler beim Löschen"] }

/-- The request body DashboardPage builds for `POST /generate-pdf`: the
stored record's url, cover letter, company name and job title, but
freshly constructed empty objects for `job_analysis` and `resume_data`. -/
def pdfBody (a : Application) : PdfBody :=
  { job_url := Json.str a.job_url,
    job_analysis := Json.obj [],
    resume_data := Json.obj [],
    cover_letter := Json.str a.cover_letter,
    company_name := a.company_name,
    job_title := a.job_title }

/-- Handler `downloadPdf` of DashboardPage, whole invocation: one
`POST /generate-pdf` call; no component state is touched; on failure the
fixed generic message is toasted (the response body is not consulted). -/
def downloadPdf (s : DashState) (a : Application) : Res Unit → DashResult
  | Res.ok _ =>
    { state := s, requests := [Request.generatePdf (pdfBody a)],
      toasts := [Toast.success "PDF heruntergeladen!"] }
  | Res.err _ =>
    { state := s, requests := [Request.generatePdf (pdfBody a)],
      toasts := [Toast.err "Fehler beim PDF-Download"] }

end Dashboard

/-- Concrete stored application used by the dashboard witnesses. -/
def appA : Application :=
  { id := "7", job_url := "https://jobs.example/7",
    job_analysis := Json.obj [("company_name", Json.str "ACME"), ("job_title", Json.str "Entwickler")],
    resume_data := Json.obj [("full_name", Json.str "Max Mustermann")],
    cover_letter := "Sehr geehrte Damen und Herren,",
    company_name := Json.str "ACME", job_title := Json.str "Entwickler",
    created_at := "2025-01-01T00:00:00Z" }

/-- A second stored application, with a different id. -/
def appB : Application :=
  { id := "8", job_url := "https://jobs.example/8",
    job_analysis := Json.obj [("company_name", Json.str "Globex")],
    resume_data := Json.obj [("full_name", Json.str "Erika Musterfrau")],
    cover_letter := "Mit freundlichen Grüßen,",
    company_name := Json.str "Globex", job_title := Json.str "Beraterin",
    created_at := "2025-02-01T00:00:00Z" }

/-- Dashboard state with both records displayed and the id of `appA`
pending deletion. -/
def dashPending : DashState :=
  { applications := [appA, appB], loading := false, deleteId := some "7",
    selectedApp := none }

/-- Generator state sitting in step 1 with a URL typed in. -/
def genUrlTyped : GenState := { initGenState with jobUrl := "https://jobs.example/7" }

/-- Backend job-analysis response used by concrete witnesses. -/
def jobResp : Json :=
  Json.obj [("company_name", Json.str "ACME"), ("job_title", Json.str "Entwickler")]

/-- Backend résumé-analysis response used by concrete witnesses. -/
def resumeResp : Json := Json.obj [("full_name", Json.str "Max Mustermann")]

/-- A full happy-path event sequence that drives GeneratorPage from the
initial state to the ReadyToExport step (step 4). -/
def reachExport : List GEvent :=
  [GEvent.setJobUrl "https://jobs.example/7",
   GEvent.analyzeJobClick,
   GEvent.analyzeJobDone (Res.ok jobResp),
   GEvent.fileUpload (some "Lebenslauf.pdf"),
   GEvent.fileUploadDone (Res.ok resumeResp),
   GEvent.generateClick,
   GEvent.generateDone (Res.ok (Json.obj [("cover_letter",
     Json.str "Sehr geehrte Damen und Herren,")]))]

/-- An event sequence in which no résumé-analysis response ever arrives. -/
def noUploadTrace : List GEvent :=
  [GEvent.setJobUrl "https://jobs.example/7",
   GEvent.analyzeJobClick,
   GEvent.analyzeJobDone (Res.ok jobResp)]

/-- Splitting a list's length into the part a predicate rejects and the
number of elements it accepts. -/
lemma length_filter_not_add_countP {α : Type} (p : α → Bool) :
    ∀ l : List α, (l.filter (fun a => !p a)).length + l.countP p = l.length := by
  intro l
  induction l with
  | nil => rfl
  | cons a l ih =>
    by_cases hp : p a = true
    · simp [List.filter_cons, List.countP_cons, hp]
      omega
    · simp [List.filter_cons, List.countP_cons, hp]
      omega

/-- C4: for every confirmed deletion with a pending id (the pending id
having matched exactly one displayed record, as the claim's definite
description presupposes), the dashboard issues exactly one DELETE call,
and on success the displayed list keeps exactly the records whose id
differs from the pending id, so it loses exactly the matching one. -/
theorem claim_C4 (s : DashState) (id : String)
    (hpend : s.deleteId = some id)
    (huniq : s.applications.countP (fun a => a.id == id) = 1) :
    (Dashboard.deleteApplication s (Res.ok ())).requests = [Request.deleteApplication id] ∧
    (Dashboard.deleteApplication s (Res.ok ())).state.applications.length + 1
      = s.applications.length ∧
    ∀ a : Application,
      a ∈ (Dashboard.deleteApplication s (Res.ok ())).state.applications ↔
        (a ∈ s.applications ∧ a.id ≠ id) := by
  have hlen := length_filter_not_add_countP (fun a : Application => a.id == id) s.applications
  rw [huniq] at hlen
  refine ⟨?_, ?_, ?_⟩
  · simp [Dashboard.deleteApplication, hpend]
  · simpa [Dashboard.deleteApplication, hpend] using hlen
  · intro a
    simp [Dashboard.deleteApplication, hpend, List.mem_filter, bne_iff_ne]

/-- Witness for C4 at a concrete dashboard state with two records. -/
theorem claim_C4_witness :
    (Dashboard.deleteApplication dashPending (Res.ok ())).requests
      = [Request.deleteApplication "7"] ∧
    (Dashboard.deleteApplication dashPending (Res.ok ())).state.applications.length + 1
      = dashPending.applications.length ∧
    (appB ∈ (Dashboard.deleteApplication dashPending (Res.ok ())).state.applications ↔
      (appB ∈ dashPending.applications ∧ appB.id ≠ "7")) := by
  have h := claim_C4 dashPending "7" rfl (by decide)
  exact ⟨h.1, h.2.1, h.2.2 appB⟩

/-- C5: a failed cover-letter generation call sends the flow back to the
upload step (step 2) and leaves the stored job analysis, résumé data,
résumé file, job URL and cover letter exactly as they were before the
attempt. -/
theorem claim_C5 (s : GenState) (d : Option String) :
    (Generator.generateCoverLetterDone
        (Generator.generateCoverLetter s).state (Res.err d)).state.currentStep = 2 ∧
    (Generator.generateCoverLetterDone
        (Generator.generateCoverLetter s).state (Res.err d)).state.jobAnalysis = s.jobAnalysis ∧
    (Generator.generateCoverLetterDone
        (Generator.generateCoverLetter s).state (Res.err d)).state.resumeData = s.resumeData ∧
    (Generator.generateCoverLetterDone
        (Generator.generateCoverLetter s).state (Res.err d)).state.jobUrl = s.jobUrl ∧
    (Generator.generateCoverLetterDone
        (Generator.generateCoverLetter s).state (Res.err d)).state.resumeFile = s.resumeFile ∧
    (Generator.generateCoverLetterDone
        (Generator.generateCoverLetter s).state (Res.err d)).state.coverLetter = s.coverLetter := by
  simp [Generator.generateCoverLetter, Generator.generateCoverLetterDone]

/-- C6: a successful job-analysis response from step 1 issues exactly the
analysis call, stores the result, advances exactly one step, and leaves
URL, résumé file, résumé data and cover letter untouched. -/
theorem claim_C6 (s : GenState) (r : Json)
    (hstep : s.currentStep = 1) (hurl : s.jobUrl ≠ "") :
    (Generator.analyzeJob s).requests = [Request.analyzeJob s.jobUrl] ∧
    (Generator.analyzeJobDone (Generator.analyzeJob s).state (Res.ok r)).state.currentStep
      = s.currentStep + 1 ∧
    (Generator.analyzeJobDone (Generator.analyzeJob s).state (Res.ok r)).state.jobAnalysis = r ∧
    (Generator.analyzeJobDone (Generator.analyzeJob s).state (Res.ok r)).state.jobUrl = s.jobUrl ∧
    (Generator.analyzeJobDone (Generator.analyzeJob s).state (Res.ok r)).state.resumeFile
      = s.resumeFile ∧
    (Generator.analyzeJobDone (Generator.analyzeJob s).state (Res.ok r)).state.resumeData
      = s.resumeData ∧
    (Generator.analyzeJobDone (Generator.analyzeJob s).state (Res.ok r)).state.coverLetter
      = s.coverLetter := by
  simp [Generator.analyzeJob, Generator.analyzeJobDone, hstep, hurl]

/-- Witness for C6 at a concrete step-1 state and response. -/
theorem claim_C6_witness :
    (Generator.analyzeJob genUrlTyped).requests
      = [Request.analyzeJob "https://jobs.example/7"] ∧
    (Generator.analyzeJobDone (Generator.analyzeJob genUrlTyped).state
        (Res.ok jobResp)).state.currentStep = 2 ∧
    (Generator.analyzeJobDone (Generator.analyzeJob genUrlTyped).state
        (Res.ok jobResp)).state.jobAnalysis = jobResp ∧
    (Generator.analyzeJobDone (Generator.analyzeJob genUrlTyped).state
        (Res.ok jobResp)).state.jobUrl = "https://jobs.example/7" ∧
    (Generator.analyzeJobDone (Generator.analyzeJob genUrlTyped).state
        (Res.ok jobResp)).state.resumeFile = none ∧
    (Generator.analyzeJobDone (Generator.analyzeJob genUrlTyped).state
        (Res.ok jobResp)).state.resumeData = Json.null ∧
    (Generator.analyzeJobDone (Generator.analyzeJob genUrlTyped).state
        (Res.ok jobResp)).state.coverLetter = Json.str "" := by
  have h := claim_C6 genUrlTyped jobResp rfl (by decide)
  exact ⟨h.1, h.2.1, h.2.2.1, h.2.2.2.1, h.2.2.2.2.1, h.2.2.2.2.2.1, h.2.2.2.2.2.2⟩

/-- C7: invoking the job-URL submit handler while the stored URL is empty
issues no network call, shows exactly the validation message, and leaves
the whole component state (step included) unchanged. -/
theorem claim_C7 (s : GenState) (h : s.jobUrl = "") :
    Generator.analyzeJob s =
      { state := s, requests := [],
        toasts := [Toast.err "Bitte geben Sie eine URL ein"], navTo := none } := by
  simp [Generator.analyzeJob, h]

/-- Witness for C7 at the initial state, whose URL is empty. -/
theorem claim_C7_witness :
    Generator.analyzeJob initGenState =
      { state := initGenState, requests := [],
        toasts := [Toast.err "Bitte geben Sie eine URL ein"], navTo := none } :=
  claim_C7 initGenState rfl

/-- C8: uploading a file whose name does not end in `.pdf`
(case-insensitively) is rejected client-side: no network call, no stored
file or résumé data (state unchanged), and exactly the error message. -/
theorem claim_C8 (s : GenState) (name : String) (h : isPdfName name = false) :
    Generator.handleFileUpload s (some name) =
      { state := s, requests := [],
        toasts := [Toast.err "Nur PDF-Dateien werden akzeptiert"], navTo := none } := by
  simp [Generator.handleFileUpload, h]

/-- Witness for C8 with a Word document name. -/
theorem claim_C8_witness :
    Generator.handleFileUpload initGenState (some "Lebenslauf.docx") =
      { state := initGenState, requests := [],
        toasts := [Toast.err "Nur PDF-Dateien werden akzeptiert"], navTo := none } :=
  claim_C8 initGenState "Lebenslauf.docx" (by decide)

/-- C10: when the DELETE call for a pending id fails, the handler leaves
the displayed list untouched, shows exactly one error message, and clears
the pending id (closing the dialog). -/
theorem claim_C10 (s : DashState) (id : String) (d : Option String)
    (h : s.deleteId = some id) :
    Dashboard.deleteApplication s (Res.err d) =
      { state := { s with deleteId := none },
        requests := [Request.deleteApplication id],
        toasts := [Toast.err "Fehler beim Löschen"] } := by
  simp [Dashboard.deleteApplication, h]

/-- Witness for C10 at a concrete dashboard state. -/
theorem claim_C10_witness :
    Dashboard.deleteApplication dashPending (Res.err (some "interner Fehler")) =
      { state := { dashPending with deleteId := none },
        requests := [Request.deleteApplication "7"],
        toasts := [Toast.err "Fehler beim Löschen"] } :=
  claim_C10 dashPending "7" (some "interner Fehler") rfl

/-- One user-interface event either leaves the stored job analysis alone or
is the delivery of a successful job-analysis response, in which case the
stored value becomes exactly that response. -/
lemma stepG_jobAnalysis_origin (s : GenState) (e : GEvent) :
    (stepG s e).state.jobAnalysis = s.jobAnalysis ∨
    ∃ r, e = GEvent.analyzeJobDone (Res.ok r) ∧ (stepG s e).state.jobAnalysis = r := by
  cases e with
  | setJobUrl u => left; simp only [stepG]; split <;> rfl
  | analyzeJobClick =>
    left; simp only [stepG]
    split
    · simp only [Generator.analyzeJob]; split <;> rfl
    · rfl
  | analyzeJobDone o =>
    cases o with
    | ok r => exact Or.inr ⟨r, rfl, rfl⟩
    | err d => left; rfl
  | fileUpload f =>
    left; simp only [stepG]
    split
    · cases f with
      | none => rfl
      | some name => simp only [Generator.handleFileUpload]; split <;> rfl
    · rfl
  | fileUploadDone o => left; cases o <;> rfl
  | backClick => left; simp only [stepG]; split <;> rfl
  | generateClick => left; simp only [stepG]; split <;> rfl
  | generateDone o => left; cases o <;> rfl
  | editClick => left; simp only [stepG]; split <;> rfl
  | saveClick => left; simp only [stepG]; split <;> rfl
  | saveDone o => left; cases o <;> rfl
  | downloadClick => left; simp only [stepG]; split <;> rfl
  | downloadDone o => left; cases o <;> rfl

/-- One user-interface event either leaves the stored résumé data alone or
is the delivery of a successful résumé-analysis response, in which case
the stored value becomes exactly that response. -/
lemma stepG_resumeData_origin (s : GenState) (e : GEvent) :
    (stepG s e).state.resumeData = s.resumeData ∨
    ∃ r, e = GEvent.fileUploadDone (Res.ok r) ∧ (stepG s e).state.resumeData = r := by
  cases e with
  | setJobUrl u => left; simp only [stepG]; split <;> rfl
  | analyzeJobClick =>
    left; simp only [stepG]
    split
    · simp only [Generator.analyzeJob]; split <;> rfl
    · rfl
  | analyzeJobDone o => left; cases o <;> rfl
  | fileUpload f =>
    left; simp only [stepG]
    split
    · cases f with
      | none => rfl
      | some name => simp only [Generator.handleFileUpload]; split <;> rfl
    · rfl
  | fileUploadDone o =>
    cases o with
    | ok r => exact Or.inr ⟨r, rfl, rfl⟩
    | err d => left; rfl
  | backClick => left; simp only [stepG]; split <;> rfl
  | generateClick => left; simp only [stepG]; split <;> rfl
  | generateDone o => left; cases o <;> rfl
  | editClick => left; simp only [stepG]; split <;> rfl
  | saveClick => left; simp only [stepG]; split <;> rfl
  | saveDone o => left; cases o <;> rfl
  | downloadClick => left; simp only [stepG]; split <;> rfl
  | downloadDone o => left; cases o <;> rfl

/-- While the stored résumé data is still null, an event that is not a
successful résumé-analysis delivery leaves it null. -/
lemma stepG_resumeData_null (s : GenState) (e : GEvent)
    (hs : s.resumeData = Json.null)
    (he : ∀ r, e ≠ GEvent.fileUploadDone (Res.ok r)) :
    (stepG s e).state.resumeData = Json.null := by
  rcases stepG_resumeData_origin s e with h | ⟨r, hr, _⟩
  · rw [h, hs]
  · exact absurd hr (he r)

/-- While the stored résumé data is still null, no event can make the
client issue a cover-letter generation request: the generate button's
disabledness blocks the only handler that issues one. -/
lemma stepG_no_generate (s : GenState) (e : GEvent)
    (hs : s.resumeData = Json.null) :
    ∀ ja rd, Request.generateCoverLetter ja rd ∉ (stepG s e).requests := by
  intro ja rd
  cases e with
  | setJobUrl u => simp only [stepG]; split <;> simp [Generator.noop]
  | analyzeJobClick =>
    simp only [stepG]
    split
    · simp only [Generator.analyzeJob]; split <;> simp
    · simp [Generator.noop]
  | analyzeJobDone o => cases o <;> simp [stepG, Generator.analyzeJobDone]
  | fileUpload f =>
    simp only [stepG]
    split
    · cases f with
      | none => simp [Generator.handleFileUpload]
      | some name =>
        simp only [Generator.handleFileUpload]
        split <;> simp
    · simp [Generator.noop]
  | fileUploadDone o => cases o <;> simp [stepG, Generator.fileUploadDone]
  | backClick => simp only [stepG]; split <;> simp [Generator.noop]
  | generateClick =>
    simp only [stepG]
    split
    · rename_i h
      have hd : Generator.generateBtnDisabled s = true := by
        simp [Generator.generateBtnDisabled, hs, jsTruthy]
      exact absurd (h.2.symm.trans hd) (by decide)
    · simp [Generator.noop]
  | generateDone o => cases o <;> simp [stepG, Generator.generateCoverLetterDone]
  | editClick => simp only [stepG]; split <;> simp [Generator.noop]
  | saveClick =>
    simp only [stepG]
    split
    · simp [Generator.saveApplication]
    · simp [Generator.noop]
  | saveDone o => cases o <;> simp [stepG, Generator.saveApplicationDone]
  | downloadClick =>
    simp only [stepG]
    split
    · simp [Generator.downloadPdf]
    · simp [Generator.noop]
  | downloadDone o => cases o <;> simp [stepG, Generator.downloadPdfDone]

/-- Along any run, the stored job analysis is either still what it started
as, or exactly some job-analysis response delivered during the run. -/
lemma runG_jobAnalysis_origin :
    ∀ (es : List GEvent) (s : GenState) (acc : List Request),
      (runG s acc es).1.jobAnalysis = s.jobAnalysis ∨
      ∃ r, GEvent.analyzeJobDone (Res.ok r) ∈ es ∧ (runG s acc es).1.jobAnalysis = r := by
  intro es
  induction es with
  | nil => intro s acc; exact Or.inl rfl
  | cons e es ih =>
    intro s acc
    rcases ih (stepG s e).state (acc ++ (stepG s e).requests) with h | ⟨r, hm, hr⟩
    · rcases stepG_jobAnalysis_origin s e with h2 | ⟨r, he, hr2⟩
      · exact Or.inl (h.trans h2)
      · exact Or.inr ⟨r, List.mem_cons.mpr (Or.inl he.symm), h.trans hr2⟩
    · exact Or.inr ⟨r, List.mem_cons_of_mem e hm, hr⟩

/-- Along any run, the stored résumé data is either still what it started
as, or exactly some résumé-analysis response delivered during the run. -/
lemma runG_resumeData_origin :
    ∀ (es : List GEvent) (s : GenState) (acc : List Request),
      (runG s acc es).1.resumeData = s.resumeData ∨
      ∃ r, GEvent.fileUploadDone (Res.ok r) ∈ es ∧ (runG s acc es).1.resumeData = r := by
  intro es
  induction es with
  | nil => intro s acc; exact Or.inl rfl
  | cons e es ih =>
    intro s acc
    rcases ih (stepG s e).state (acc ++ (stepG s e).requests) with h | ⟨r, hm, hr⟩
    · rcases stepG_resumeData_origin s e with h2 | ⟨r, he, hr2⟩
      · exact Or.inl (h.trans h2)
      · exact Or.inr ⟨r, List.mem_cons.mpr (Or.inl he.symm), h.trans hr2⟩
    · exact Or.inr ⟨r, List.mem_cons_of_mem e hm, hr⟩

/-- A run that never receives a successful résumé-analysis response keeps
the stored résumé data null and adds no cover-letter generation request
to the accumulated request list. -/
lemma runG_no_generate :
    ∀ (es : List GEvent) (s : GenState) (acc : List Request),
      s.resumeData = Json.null →
      (∀ r, GEvent.fileUploadDone (Res.ok r) ∉ es) →
      (runG s acc es).1.resumeData = Json.null ∧
      ∀ ja rd, Request.generateCoverLetter ja rd ∈ (runG s acc es).2 →
        Request.generateCoverLetter ja rd ∈ acc := by
  intro es
  induction es with
  | nil => intro s acc hs _; exact ⟨hs, fun ja rd h => h⟩
  | cons e es ih =>
    intro s acc hs he
    have hnotE : ∀ r, e ≠ GEvent.fileUploadDone (Res.ok r) :=
      fun r hr => he r (List.mem_cons.mpr (Or.inl hr.symm))
    have hes : ∀ r, GEvent.fileUploadDone (Res.ok r) ∉ es :=
      fun r hr => he r (List.mem_cons_of_mem e hr)
    have h1 := stepG_resumeData_null s e hs hnotE
    have h2 := ih (stepG s e).state (acc ++ (stepG s e).requests) h1 hes
    refine ⟨h2.1, fun ja rd hm => ?_⟩
    rcases List.mem_append.mp (h2.2 ja rd hm) with h | h
    · exact h
    · exact absurd h (stepG_no_generate s e hs ja rd)

/-- C9: the generate action is disabled whenever a call is outstanding or
no résumé-analysis result is stored; and in every state reachable by any
event sequence in which no résumé-analysis response was ever received,
the generate button is disabled and no cover-letter generation request
was ever issued. -/
theorem claim_C9 :
    (∀ s : GenState, s.loading = true ∨ jsTruthy s.resumeData = false →
      Generator.generateBtnDisabled s = true) ∧
    (∀ es : List GEvent, (∀ r, GEvent.fileUploadDone (Res.ok r) ∉ es) →
      Generator.generateBtnDisabled (runG0 es).1 = true ∧
      ∀ ja rd, Request.generateCoverLetter ja rd ∉ (runG0 es).2) := by
  constructor
  · intro s h
    rcases h with h | h <;> simp [Generator.generateBtnDisabled, h]
  · intro es he
    have h := runG_no_generate es initGenState [] rfl he
    constructor
    · simp [Generator.generateBtnDisabled, runG0, h.1, jsTruthy]
    · intro ja rd hm
      exact absurd (h.2 ja rd hm) (List.not_mem_nil _)

/-- Witness for C9 on a concrete trace that analyzes a job but never
uploads a résumé. -/
theorem claim_C9_witness :
    Generator.generateBtnDisabled (runG0 noUploadTrace).1 = true ∧
    Request.generateCoverLetter jobResp Json.null ∉ (runG0 noUploadTrace).2 := by
  have h := claim_C9.2 noUploadTrace (by intro r; simp [noUploadTrace])
  exact ⟨h.1, h.2 jobResp Json.null⟩

/-- Counterexample to C1 as stated: the dashboard's PDF download sends a
client-built empty object as the job analysis, which differs from the
job analysis of the backend-delivered record it is downloading, so not
every such value is forwarded verbatim from a backend response. -/
theorem claim_C1_counterexample :
    (Dashboard.pdfBody appA).job_analysis = Json.obj [] ∧
    (Dashboard.pdfBody appA).resume_data = Json.obj [] ∧
    appA.job_analysis ≠ Json.obj [] ∧
    (Dashboard.pdfBody appA).job_analysis ≠ appA.job_analysis := by
  decide

/-- C1 amended: the generator flow does forward job analysis and résumé
data verbatim — its request bodies carry exactly the stored values, and
along any run the stored values are either still the initial null or
exactly some backend response delivered during the run — but the
dashboard PDF download builds empty `job_analysis` / `resume_data`
objects client-side, forwarding only the record's primitive fields. -/
theorem claim_C1_amended :
    (∀ s : GenState, (Generator.generateCoverLetter s).requests
        = [Request.generateCoverLetter s.jobAnalysis s.resumeData]) ∧
    (∀ s : GenState,
      (Generator.pdfBody s).job_analysis = s.jobAnalysis ∧
      (Generator.pdfBody s).resume_data = s.resumeData ∧
      (Generator.pdfBody s).cover_letter = s.coverLetter ∧
      (Generator.pdfBody s).job_url = Json.str s.jobUrl) ∧
    (∀ es : List GEvent, (runG0 es).1.jobAnalysis = Json.null ∨
      ∃ r, GEvent.analyzeJobDone (Res.ok r) ∈ es ∧ (runG0 es).1.jobAnalysis = r) ∧
    (∀ es : List GEvent, (runG0 es).1.resumeData = Json.null ∨
      ∃ r, GEvent.fileUploadDone (Res.ok r) ∈ es ∧ (runG0 es).1.resumeData = r) ∧
    (∀ a : Application,
      (Dashboard.pdfBody a).job_analysis = Json.obj [] ∧
      (Dashboard.pdfBody a).resume_data = Json.obj [] ∧
      (Dashboard.pdfBody a).cover_letter = Json.str a.cover_letter ∧
      (Dashboard.pdfBody a).job_url = Json.str a.job_url ∧
      (Dashboard.pdfBody a).company_name = a.company_name ∧
      (Dashboard.pdfBody a).job_title = a.job_title) := by
  refine ⟨fun s => rfl, fun s => ⟨rfl, rfl, rfl, rfl⟩, ?_, ?_,
    fun a => ⟨rfl, rfl, rfl, rfl, rfl, rfl⟩⟩
  · intro es; exact runG_jobAnalysis_origin es initGenState []
  · intro es; exact runG_resumeData_origin es initGenState []

/-- Counterexample to C2 as stated: on a concrete happy-path trace into
step 4 the save button is enabled, and merely invoking the download
action disables it — the shared `loading` flag couples the actions'
availability. -/
theorem claim_C2_counterexample :
    (runG0 reachExport).1.currentStep = 4 ∧
    Generator.saveBtnDisabled (runG0 reachExport).1 = false ∧
    Generator.saveBtnDisabled (runG0 (reachExport ++ [GEvent.downloadClick])).1 = true := by
  decide

/-- C2 amended: the three step-4 actions share exactly the `loading` flag
(and the cosmetic progress text): invoking save or download sets
`loading`, disabling both buttons until the call's finally-block clears
it, while edit (which has no disabled attribute) stays available; apart
from that, save and download leave every form field and the step
unchanged, their continuations only clear `loading`, and edit changes
only the step, so each action remains independently retryable. -/
theorem claim_C2_amended :
    (∀ s : GenState, (Generator.downloadPdf s).state
        = { s with loading := true, progressText := "Erstelle PDF..." } ∧
      (Generator.downloadPdf s).requests = [Request.generatePdf (Generator.pdfBody s)]) ∧
    (∀ (s : GenState) (o : Res Unit),
      (Generator.downloadPdfDone s o).state = { s with loading := false }) ∧
    (∀ s : GenState, (Generator.saveApplication s).state = { s with loading := true } ∧
      (Generator.saveApplication s).requests
        = [Request.createApplication (Generator.pdfBody s)]) ∧
    (∀ (s : GenState) (o : Res Unit),
      (Generator.saveApplicationDone s o).state = { s with loading := false }) ∧
    (∀ s : GenState, Generator.editCoverLetter s = { s with currentStep := 2 } ∧
      Generator.editBtnDisabled s = false) := by
  refine ⟨fun s => ⟨rfl, rfl⟩, fun s o => ?_, fun s => ⟨rfl, rfl⟩, fun s o => ?_,
    fun s => ⟨rfl, rfl⟩⟩
  · cases o <;> rfl
  · cases o <;> rfl

/-- Counterexample to C3 as stated: a failed PDF download whose error
response body does carry a detail message still shows the fixed generic
message, not the one from the body. -/
theorem claim_C3_counterexample :
    (Generator.downloadPdfDone initGenState (Res.err (some "Serverfehler"))).toasts
      = [Toast.err "Fehler beim PDF-Download"] ∧
    "Fehler beim PDF-Download" ≠ "Serverfehler" := by
  decide

/-- C3 amended: every failed call shows exactly one message, but only the
job-analysis, résumé-analysis and cover-letter-generation calls source it
from the response body's detail (falling back to a generic message);
the PDF downloads, the application save, the list fetch and the delete
always show a fixed generic message and ignore the response body. -/
theorem claim_C3_amended :
    (∀ (s : GenState) (d : Option String),
      (Generator.analyzeJobDone s (Res.err d)).toasts
        = [Toast.err (orGeneric d "Fehler bei der Analyse")]) ∧
    (∀ (s : GenState) (d : Option String),
      (Generator.fileUploadDone s (Res.err d)).toasts
        = [Toast.err (orGeneric d "Fehler bei der PDF-Analyse")]) ∧
    (∀ (s : GenState) (d : Option String),
      (Generator.generateCoverLetterDone s (Res.err d)).toasts
        = [Toast.err (orGeneric d "Fehler bei der Generierung")]) ∧
    (∀ (s : GenState) (d : Option String),
      (Generator.downloadPdfDone s (Res.err d)).toasts
        = [Toast.err "Fehler beim PDF-Download"]) ∧
    (∀ (s : GenState) (d : Option String),
      (Generator.saveApplicationDone s (Res.err d)).toasts
        = [Toast.err "Fehler beim Speichern"]) ∧
    (∀ (s : DashState) (d : Option String),
      (Dashboard.fetchApplicationsDone s (Res.err d)).toasts
        = [Toast.err "Fehler beim Laden der Bewerbungen"]) ∧
    (∀ (s : DashState) (id : String) (d : Option String), s.deleteId = some id →
      (Dashboard.deleteApplication s (Res.err d)).toasts
        = [Toast.err "Fehler beim Löschen"]) ∧
    (∀ (s : DashState) (a : Application) (d : Option String),
      (Dashboard.downloadPdf s a (Res.err d)).toasts
        = [Toast.err "Fehler beim PDF-Download"]) := by
  refine ⟨fun s d => rfl, fun s d => rfl, fun s d => rfl, fun s d => rfl,
    fun s d => rfl, fun s d => rfl, ?_, fun s a d => rfl⟩
  intro s id d h
  simp [Dashboard.deleteApplication, h]

/-- Witness for C3 amended, instantiating the delete conjunct at a
concrete dashboard state with a pending id. -/
theorem claim_C3_amended_witness :
    (Dashboard.deleteApplication dashPending (Res.err (some "Datenbankfehler"))).toasts
      = [Toast.err "Fehler beim Löschen"] :=
  claim_C3_amended.2.2.2.2.2.2.1 dashPending "7" (some "Datenbankfehler") rfl

end Bewerbung
